import Mathlib

/-!
Verification of the quote lifecycle and fiscal computation engine of the
fastapi_invoice backend, shallowly embedded in Lean 4.

Money is modelled as `ℚ` (the source uses Python `Decimal`: exact addition,
subtraction and multiplication; the only division performed, by the literal
`100`, is exact for the magnitudes involved, so `ℚ` is faithful).  Timestamps
are modelled as `Int` (seconds).  Nondeterministic inputs of the source
(current time, freshly generated UUID tokens, client IP) are passed as
explicit parameters.
-/

namespace Invoice

/-- `models/enums.py`: supported currencies. -/
inductive Currency where
  | EUR
deriving DecidableEq

/-- `models/enums.py`: quote lifecycle statuses. -/
inductive QuoteStatus where
  | Draft
  | Sent
  | Accepted
  | Rejected
  | Signed
deriving DecidableEq

/-- `models/enums.py`: discount calculation methods. -/
inductive DiscountType where
  | Percentage
  | Fixed
deriving DecidableEq

/-- `models/enums.py`: fiscal status for VAT calculation. -/
inductive TaxStatus where
  | Franchise
  | Assujetti
deriving DecidableEq

/-- Error taxonomy of the HTTP boundary: 404, 403, 410, 400, 422, 500. -/
inductive ApiError where
  | NotFound
  | Locked
  | Expired
  | AlreadySigned
  | ValidationError
  | Internal
deriving DecidableEq

/-- Modelled from the spec: `models/quote.py` is not under `src/` (only its
callers and tests are).  A quote line item: `description`, `quantity`
(decimal), `unit_price` (decimal), `total = quantity × unit_price` (derived),
`order` (display sequence).  `id` is the database primary key; items created
within a request and not yet persisted carry `id = 0`. -/
structure QuoteItem where
  id : Nat
  description : String
  quantity : ℚ
  unit_price : ℚ
  total : ℚ
  order : Int
deriving DecidableEq

/-- Modelled from the spec: `models/quote.py` is not under `src/`.  The Quote
aggregate root: identity, ownership, monetary fields, fiscal snapshot,
lifecycle flags, share/sign evidence and timestamps, plus its owned items. -/
structure Quote where
  id : String
  user_id : String
  client_id : String
  quote_number : String
  currency : Currency
  subtotal : ℚ
  tax_rate : ℚ
  tax_amount : ℚ
  total : ℚ
  discount_type : Option DiscountType
  discount_value : ℚ
  notes : Option String
  payment_terms : Option String
  status : QuoteStatus
  tax_status : TaxStatus
  is_paid : Bool
  payment_date : Option Int
  share_token : Option String
  share_token_expires_at : Option Int
  signed_at : Option Int
  signature_data : Option String
  signer_name : Option String
  signer_ip : Option String
  sent_at : Option Int
  created_at : Int
  updated_at : Int
  items : List QuoteItem
deriving DecidableEq

/-- `models/client.py` is not under `src/`; modelled from the spec: a Client
is owned by exactly one user and referenced by quotes by id. -/
structure Client where
  id : String
  user_id : String
  name : String
  email : String
  company : Option String
deriving DecidableEq

/-- `models/user.py` is not under `src/`; modelled from the spec: the core
only depends on `user_id` and `tax_status`. -/
structure User where
  id : String
  tax_status : TaxStatus
deriving DecidableEq

/-- Python truthiness of an optional string: `None` and `""` are falsy. -/
def strTruthy : Option String → Bool
  | none => false
  | some s => s ≠ ""

/-- Python truthiness of an optional decimal: `None` and `0` are falsy. -/
def ratTruthy : Option ℚ → Bool
  | none => false
  | some v => v ≠ 0

/-- Python `x or d` for an optional decimal `x`. -/
def pyOrRat (x : Option ℚ) (d : ℚ) : ℚ :=
  if ratTruthy x then x.getD 0 else d

/-- Python `x or d` for an optional string `x`. -/
def pyOrStr (x : Option String) (d : String) : String :=
  if strTruthy x then x.getD "" else d

/-- Python `x or d` for an optional integer `x` (`None` and `0` falsy). -/
def pyOrInt (x : Option Int) (d : Int) : Int :=
  match x with
  | none => d
  | some v => if v ≠ 0 then v else d

/-- `routers/quotes.py` lines 17-33, `calculate_quote_totals`: subtotal is
the plain sum of the given items' stored totals; the discount value is taken
as a fixed amount when truthy; `taxable = max(subtotal - discount, 0)`;
`tax = taxable * tax_rate / 100` (exact `Decimal` arithmetic, no explicit
rounding in the function); `total = taxable + tax`.  The source mutates the
quote in place; here the updated quote is returned. -/
def calculate_quote_totals (quote : Quote) (items : List QuoteItem) : Quote :=
  let subtotal := (items.map QuoteItem.total).sum
  let discount_amount := if quote.discount_value ≠ 0 then quote.discount_value else 0
  let taxable_amount := max (subtotal - discount_amount) 0
  let tax_amount := taxable_amount * quote.tax_rate / 100
  let total := taxable_amount + tax_amount
  { quote with subtotal := subtotal, tax_amount := tax_amount, total := total }

/-- Modelled from the spec: `schemas/quote.py` is not under `src/`.  Item
payload of quote creation; all fields are supplied. -/
structure QuoteItemCreate where
  description : String
  quantity : ℚ
  unit_price : ℚ
  order : Int
deriving DecidableEq

/-- Modelled from the spec: `schemas/quote.py` is not under `src/`.  Quote
creation payload. -/
structure QuoteCreate where
  client_id : String
  quote_number : Option String
  currency : Currency
  tax_rate : ℚ
  discount_type : Option DiscountType
  discount_value : ℚ
  notes : Option String
  payment_terms : Option String
  items : List QuoteItemCreate
deriving DecidableEq

/-- Modelled from the spec: `schemas/quote.py` is not under `src/`.  An item
entry of an update payload: every field optional (partial patch). -/
structure QuoteItemPatch where
  id : Option Nat
  description : Option String
  quantity : Option ℚ
  unit_price : Option ℚ
  order : Option Int
deriving DecidableEq

/-- Modelled from the spec: `schemas/quote.py` is not under `src/`.  Quote
update payload; the quote router reads exactly these fields. -/
structure QuoteUpdate where
  client_id : Option String
  quote_number : Option String
  currency : Option Currency
  status : Option QuoteStatus
  is_paid : Option Bool
  tax_rate : Option ℚ
  items : Option (List QuoteItemPatch)
deriving DecidableEq

/-- `routers/quotes.py` lines 74-86: the items built by `create_quote`, one
per payload item, with `total = quantity * unit_price`. -/
def newQuoteItems (quote_data : QuoteCreate) : List QuoteItem :=
  quote_data.items.map (fun item_in =>
    { id := 0
      description := item_in.description
      quantity := item_in.quantity
      unit_price := item_in.unit_price
      total := item_in.quantity * item_in.unit_price
      order := item_in.order : QuoteItem })

/-- `routers/quotes.py` lines 48-88: the construction part of `create_quote`
(after the ownership check): quote number generated when the supplied one is
falsy, tax rate forced to 0 for a FRANCHISE user, the user's tax status
snapshotted, items built with `total = quantity * unit_price`, status
`Draft`, and the aggregate totals computed. -/
def buildNewQuote (current_user : User) (quote_data : QuoteCreate)
    (newId : String) (nowMillis : Int) (now : Int) : Quote :=
  let quote_number := pyOrStr quote_data.quote_number ("Q-" ++ toString nowMillis)
  let effective_tax_rate :=
    if current_user.tax_status = TaxStatus.Franchise then (0 : ℚ)
    else quote_data.tax_rate
  let db_items := newQuoteItems quote_data
  let quote : Quote :=
    { id := newId
      user_id := current_user.id
      client_id := quote_data.client_id
      quote_number := quote_number
      currency := quote_data.currency
      subtotal := 0
      tax_rate := effective_tax_rate
      tax_amount := 0
      total := 0
      discount_type := quote_data.discount_type
      discount_value := quote_data.discount_value
      notes := quote_data.notes
      payment_terms := quote_data.payment_terms
      status := QuoteStatus.Draft
      tax_status := current_user.tax_status
      is_paid := false
      payment_date := none
      share_token := none
      share_token_expires_at := none
      signed_at := none
      signature_data := none
      signer_name := none
      signer_ip := none
      sent_at := none
      created_at := now
      updated_at := now
      items := db_items }
  calculate_quote_totals quote db_items

/-- `routers/quotes.py` lines 35-93, `create_quote`: verify client ownership
(404 on missing or foreign client), then build and store the new quote.
`nowMillis` stands for `int(datetime.now().timestamp() * 1000)`, `now` for
the creation instant and `newId` for the database-assigned quote id. -/
def create_quote (current_user : User) (clients : List Client)
    (quote_data : QuoteCreate) (newId : String) (nowMillis : Int) (now : Int) :
    Except ApiError Quote :=
  match clients.find? (fun c => c.id = quote_data.client_id) with
  | none => .error .NotFound
  | some client =>
    if client.user_id ≠ current_user.id then .error .NotFound
    else .ok (buildNewQuote current_user quote_data newId nowMillis now)

/-- `routers/quotes.py` lines 177-185: patch an existing item matched by id.
Fields are applied under Python truthiness (`if item_in.description:` etc.,
so an empty string or a zero value is not applied); `order` is applied
whenever it `is not None`; the item's total is then recomputed as
`quantity * unit_price` from the patched values. -/
def applyItemPatch (existing_item : QuoteItem) (item_in : QuoteItemPatch) : QuoteItem :=
  let description :=
    if strTruthy item_in.description then item_in.description.getD "" else existing_item.description
  let quantity :=
    if ratTruthy item_in.quantity then item_in.quantity.getD 0 else existing_item.quantity
  let unit_price :=
    if ratTruthy item_in.unit_price then item_in.unit_price.getD 0 else existing_item.unit_price
  let ord := item_in.order.getD existing_item.order
  { existing_item with
      description := description
      quantity := quantity
      unit_price := unit_price
      order := ord
      total := quantity * unit_price }

/-- `routers/quotes.py` lines 186-196: build a new item from an incoming
entry that carries no id (or an unrecognized one).  Note the source computes
`item_total = (item_in.quantity or 0) * (item_in.unit_price or 0)` before
branching, while the stored quantity defaults to 1: an entry with no quantity
gets `quantity = 1` but `total = 0`. -/
def newItemFromPatch (item_in : QuoteItemPatch) : QuoteItem :=
  { id := 0
    description := pyOrStr item_in.description ""
    quantity := pyOrRat item_in.quantity 1
    unit_price := pyOrRat item_in.unit_price 0
    total := pyOrRat item_in.quantity 0 * pyOrRat item_in.unit_price 0
    order := pyOrInt item_in.order 0 }

/-- Python truthiness of an optional integer id (`None` and `0` falsy),
returning the id when truthy. -/
def truthyId : Option Nat → Option Nat
  | none => none
  | some n => if n = 0 then none else some n

/-- `routers/quotes.py` lines 169-199: reconcile the incoming entries against
the remaining (not yet matched) existing items.  A truthy id found among the
remaining items patches that item and removes it from the remaining set; any
other entry becomes a new item.  The returned list is the quote's new item
list; remaining items never matched are deleted (they simply do not appear in
the result). -/
def reconcileItems : List QuoteItem → List QuoteItemPatch → List QuoteItem
  | _, [] => []
  | remaining, item_in :: rest =>
    match truthyId item_in.id with
    | some pid =>
      match remaining.find? (fun it => it.id = pid) with
      | some existing_item =>
        applyItemPatch existing_item item_in ::
          reconcileItems (remaining.filter (fun it => it.id ≠ pid)) rest
      | none => newItemFromPatch item_in :: reconcileItems remaining rest
    | none => newItemFromPatch item_in :: reconcileItems remaining rest

/-- `routers/quotes.py` lines 145-167: the header-field section of
`update_quote`.  `client_id` and `quote_number` are applied under Python
truthiness; `currency` and `status` whenever present (enum values are always
truthy); `is_paid` whenever it `is not None`, stamping `payment_date = now`
the first time the quote becomes paid; `tax_rate`, when part of the payload,
is forced to 0 for a FRANCHISE snapshot and applied as given otherwise. -/
def applyHeaderUpdate (quote : Quote) (quote_data : QuoteUpdate) (now : Int) : Quote :=
  let q1 := { quote with
    client_id := if strTruthy quote_data.client_id then quote_data.client_id.getD "" else quote.client_id
    quote_number := if strTruthy quote_data.quote_number then quote_data.quote_number.getD "" else quote.quote_number
    currency := quote_data.currency.getD quote.currency
    status := quote_data.status.getD quote.status }
  let q2 :=
    match quote_data.is_paid with
    | none => q1
    | some b =>
      if b ∧ q1.payment_date = none
      then { q1 with is_paid := b, payment_date := some now }
      else { q1 with is_paid := b }
  match quote_data.tax_rate with
  | none => q2
  | some r =>
    if q2.tax_status = TaxStatus.Franchise
    then { q2 with tax_rate := 0 }
    else { q2 with tax_rate := r }

/-- `routers/quotes.py` lines 129-206, `update_quote`: 404 on missing
ownership, 403 (`Locked`) when the quote is paid; then the header fields are
applied; when the payload includes an items list the items are reconciled
and the aggregate totals recomputed over the resulting list — otherwise
items and the three totals fields are left untouched. -/
def update_quote (current_user_id : String) (quote : Quote)
    (quote_data : QuoteUpdate) (now : Int) : Except ApiError Quote :=
  if quote.user_id ≠ current_user_id then .error .NotFound
  else if quote.is_paid then .error .Locked
  else
    let q3 := applyHeaderUpdate quote quote_data now
    match quote_data.items with
    | none => .ok q3
    | some incoming =>
      let new_items_list := reconcileItems q3.items incoming
      .ok (calculate_quote_totals { q3 with items := new_items_list } new_items_list)

/-- `timedelta(days=30)` in seconds. -/
def thirtyDays : Int := 30 * 86400

/-- `routers/share.py` lines 68-99, `generate_share_link`: 404 unless the
quote belongs to the caller; then unconditionally set a fresh token, the
expiry `now + 30 days`, `status = Sent`, `sent_at = now` and
`updated_at = now`.  There is no `is_paid` guard and no `if sent_at is None`
guard in the source. -/
def generate_share_link (current_user_id : String) (quote : Quote)
    (token : String) (now : Int) : Except ApiError Quote :=
  if quote.user_id ≠ current_user_id then .error .NotFound
  else
    .ok { quote with
      share_token := some token
      share_token_expires_at := some (now + thirtyDays)
      status := QuoteStatus.Sent
      sent_at := some now
      updated_at := now }

/-- `select(Quote).where(Quote.share_token == token)` over the store. -/
def findByToken (db : List Quote) (token : String) : Option Quote :=
  db.find? (fun q => q.share_token = some token)

/-- Public projection of a quote returned by `get_public_quote`
(`routers/share.py` lines 131-157); monetary fields kept exact. -/
structure PublicQuoteView where
  quote_number : String
  client_name : String
  client_email : String
  subtotal : ℚ
  tax_rate : ℚ
  tax_amount : ℚ
  total : ℚ
  status : QuoteStatus
  is_signed : Bool
  signed_at : Option Int
  signer_name : Option String
deriving DecidableEq

/-- `routers/share.py` lines 104-157, `get_public_quote`: look the quote up
by share token (404 when absent), look its client up (404 when absent), and
return the public view.  The expiry check is commented out in the source, so
no time parameter is consulted at all. -/
def get_public_quote (db : List Quote) (clients : List Client) (token : String) :
    Except ApiError PublicQuoteView :=
  match findByToken db token with
  | none => .error .NotFound
  | some quote =>
    match clients.find? (fun c => c.id = quote.client_id) with
    | none => .error .NotFound
    | some client =>
      .ok { quote_number := quote.quote_number
            client_name := client.name
            client_email := client.email
            subtotal := quote.subtotal
            tax_rate := quote.tax_rate
            tax_amount := quote.tax_amount
            total := quote.total
            status := quote.status
            is_signed := quote.signed_at.isSome
            signed_at := quote.signed_at
            signer_name := quote.signer_name }

/-- `routers/share.py` lines 160-211, `sign_quote`: look the quote up by
share token (404 when absent); 410 (`Expired`) when the token expiry has
passed; 400 (`AlreadySigned`) when `signed_at` is already set; otherwise
record `signed_at`, `signature_data`, `signer_name`, `signer_ip`,
`status = Signed` and `updated_at = now`.  `client_ip` stands for the value
derived from the forwarded-for header or the peer address. -/
def sign_quote (db : List Quote) (token : String)
    (signer_name signature_data client_ip : String) (now : Int) :
    Except ApiError Quote :=
  match findByToken db token with
  | none => .error .NotFound
  | some quote =>
    match quote.share_token_expires_at with
    | some expires_at =>
      if expires_at < now then .error .Expired
      else if quote.signed_at.isSome then .error .AlreadySigned
      else
        .ok { quote with
          signed_at := some now
          signature_data := some signature_data
          signer_name := some signer_name
          signer_ip := some client_ip
          status := QuoteStatus.Signed
          updated_at := now }
    | none =>
      if quote.signed_at.isSome then .error .AlreadySigned
      else
        .ok { quote with
          signed_at := some now
          signature_data := some signature_data
          signer_name := some signer_name
          signer_ip := some client_ip
          status := QuoteStatus.Signed
          updated_at := now }

/-- `routers/share.py` lines 214-265, `get_public_quote_pdf`: look the quote
up by share token (404 when absent; the expiry check is commented out), fall
back to default settings when the owner has none, 500 when the owning user is
missing; on success the quote is handed to the external PDF renderer, so the
embedding returns the quote that would be rendered. -/
def get_public_quote_pdf (db : List Quote) (users : List User) (token : String) :
    Except ApiError Quote :=
  match findByToken db token with
  | none => .error .NotFound
  | some quote =>
    match users.find? (fun u => u.id = quote.user_id) with
    | none => .error .Internal
    | some _ => .ok quote

/-- `routers/dashboard.py` lines 204-225: classify the collected (paid, this
calendar year) revenue against the VAT franchise thresholds.  An ASSUJETTI
user is classified "assujetti" regardless of revenue; otherwise the revenue
is compared against the ceiling 41 250 and the base threshold 37 500. -/
def thresholdClassify (collected_revenue : ℚ) (tax_status : TaxStatus) : String :=
  if tax_status = TaxStatus.Assujetti then "assujetti"
  else if collected_revenue > 41250 then "exceeded"
  else if collected_revenue > 37500 then "warning"
  else "ok"

/-- Round a rational to the nearest integer, ties to even — the default
rounding of Python `Decimal` / `round`. -/
def roundHalfEven (x : ℚ) : Int :=
  let f := ⌊x⌋
  let frac := x - (f : ℚ)
  if frac < 1 / 2 then f
  else if 1 / 2 < frac then f + 1
  else if f % 2 = 0 then f else f + 1

/-- Round a rational to 2 decimal places, ties to even. -/
def round2 (x : ℚ) : ℚ := (roundHalfEven (x * 100) : ℚ) / 100

/-- The reference totals definition, written from the spec (§4.1): each item
total is individually rounded to 2 decimals before summing;
`taxableAmount = max(subtotal − discountValue, 0)`;
`taxAmount = round(taxableAmount × taxRatePercent / 100, 2)`;
`total = taxableAmount + taxAmount`.  Items are (quantity, unit price)
pairs; the result is `(subtotal, taxAmount, total)`. -/
def computeTotalsRef (items : List (ℚ × ℚ)) (discountValue taxRatePercent : ℚ) :
    ℚ × ℚ × ℚ :=
  let subtotal := (items.map (fun it => round2 (it.1 * it.2))).sum
  let taxableAmount := max (subtotal - discountValue) 0
  let taxAmount := round2 (taxableAmount * taxRatePercent / 100)
  (subtotal, taxAmount, taxableAmount + taxAmount)

/-- The amended reference totals: per-item totals are the exact products
(no per-item re-rounding beyond what is stored), and the tax amount is the
exact `taxableAmount × taxRatePercent / 100` with no rounding to 2 decimal
places; `total = taxableAmount + taxAmount`. -/
def computeTotalsExact (items : List (ℚ × ℚ)) (discountValue taxRatePercent : ℚ) :
    ℚ × ℚ × ℚ :=
  let subtotal := (items.map (fun it => it.1 * it.2)).sum
  let taxableAmount := max (subtotal - discountValue) 0
  let taxAmount := taxableAmount * taxRatePercent / 100
  (subtotal, taxAmount, taxableAmount + taxAmount)

/-- Items exactly as `create_quote` builds them from (quantity, unit price)
pairs: `total = quantity * unit_price`. -/
def mkItems (pairs : List (ℚ × ℚ)) : List QuoteItem :=
  pairs.map (fun pr =>
    { id := 0, description := "", quantity := pr.1, unit_price := pr.2,
      total := pr.1 * pr.2, order := 0 })

/-- A concrete quote fixture used by witnesses and counterexamples. -/
def baseQuote : Quote :=
  { id := "q1", user_id := "u1", client_id := "c1", quote_number := "Q-001",
    currency := .EUR, subtotal := 0, tax_rate := 0, tax_amount := 0, total := 0,
    discount_type := none, discount_value := 0, notes := none, payment_terms := none,
    status := .Draft, tax_status := .Assujetti, is_paid := false, payment_date := none,
    share_token := none, share_token_expires_at := none, signed_at := none,
    signature_data := none, signer_name := none, signer_ip := none, sent_at := none,
    created_at := 0, updated_at := 0, items := [] }

end Invoice

namespace Invoice

/-- A quote's three aggregate monetary fields are exactly what
`calculate_quote_totals` recomputes from its current items, discount and
tax rate. -/
def TotalsConsistent (q : Quote) : Prop :=
  calculate_quote_totals q q.items = q

/- Recomputing the totals is idempotent: the function reads only
`discount_value` and `tax_rate`, which it does not write. -/
theorem calc_totals_idem (q : Quote) (l : List QuoteItem) :
    calculate_quote_totals (calculate_quote_totals q l) l = calculate_quote_totals q l := rfl

theorem calc_totals_items (q : Quote) (l : List QuoteItem) :
    (calculate_quote_totals q l).items = q.items := rfl

/-- C2 counterexample: at the single item (quantity 1, unit price 0.01),
discount 0 and tax rate 3.00, `calculate_quote_totals` yields the exact tax
amount 0.0003 while the spec's reference definition rounds it to 0.00, so
the two definitions are not equal. -/
theorem C2_counterexample :
    (calculate_quote_totals { baseQuote with tax_rate := 3 }
        (mkItems [(1, 1 / 100)])).tax_amount
      ≠ (computeTotalsRef [(1, 1 / 100)] 0 3).2.1 := by
  norm_num [calculate_quote_totals, mkItems, baseQuote, computeTotalsRef,
    round2, roundHalfEven]

/-- C2 (amended): for every item list (built, as `create_quote` builds them,
with stored `total = quantity × unit_price`, no per-item re-rounding),
discount value and tax-rate percent, `calculate_quote_totals` computes
`subtotal` as the plain sum of the stored item totals,
`taxableAmount = max(subtotal − discountValue, 0)`,
`taxAmount = taxableAmount × taxRatePercent / 100` **exactly, with no
rounding to 2 decimals**, and `total = taxableAmount + taxAmount`. -/
theorem C2_totals_amended (q : Quote) (pairs : List (ℚ × ℚ)) :
    ((calculate_quote_totals q (mkItems pairs)).subtotal,
     (calculate_quote_totals q (mkItems pairs)).tax_amount,
     (calculate_quote_totals q (mkItems pairs)).total)
      = computeTotalsExact pairs q.discount_value q.tax_rate := by
  have hmap : List.map QuoteItem.total (mkItems pairs) =
      pairs.map (fun it => it.1 * it.2) := by
    simp only [mkItems, List.map_map]; rfl
  simp only [calculate_quote_totals, computeTotalsExact, hmap]
  rcases eq_or_ne q.discount_value 0 with h | h <;> simp [h]

/-- C2 witness: the amended equality at the concrete item list
[(2, 100), (1, 50)] on the 20 % fixture. -/
theorem C2_totals_amended_witness :
    ((calculate_quote_totals { baseQuote with tax_rate := 20 }
        (mkItems [(2, 100), (1, 50)])).subtotal,
     (calculate_quote_totals { baseQuote with tax_rate := 20 }
        (mkItems [(2, 100), (1, 50)])).tax_amount,
     (calculate_quote_totals { baseQuote with tax_rate := 20 }
        (mkItems [(2, 100), (1, 50)])).total)
      = computeTotalsExact [(2, 100), (1, 50)]
          ({ baseQuote with tax_rate := 20 } : Quote).discount_value
          ({ baseQuote with tax_rate := 20 } : Quote).tax_rate :=
  C2_totals_amended { baseQuote with tax_rate := 20 } [(2, 100), (1, 50)]

/-- C9: the threshold classification returns "assujetti" for an ASSUJETTI
user regardless of revenue; for a FRANCHISE user it returns "exceeded" iff
revenue > 41 250, "warning" iff 37 500 < revenue ≤ 41 250 and "ok" iff
revenue ≤ 37 500; in particular 38 000 → "warning", 42 000 → "exceeded",
30 000 → "ok". -/
theorem C9_threshold_classification :
    (∀ r : ℚ, thresholdClassify r TaxStatus.Assujetti = "assujetti") ∧
    (∀ r : ℚ, thresholdClassify r TaxStatus.Franchise = "exceeded" ↔ 41250 < r) ∧
    (∀ r : ℚ, thresholdClassify r TaxStatus.Franchise = "warning" ↔
      37500 < r ∧ r ≤ 41250) ∧
    (∀ r : ℚ, thresholdClassify r TaxStatus.Franchise = "ok" ↔ r ≤ 37500) ∧
    thresholdClassify 38000 TaxStatus.Franchise = "warning" ∧
    thresholdClassify 42000 TaxStatus.Franchise = "exceeded" ∧
    thresholdClassify 30000 TaxStatus.Franchise = "ok" := by
  refine ⟨fun r => by simp [thresholdClassify], fun r => ?_, fun r => ?_, fun r => ?_,
    by decide, by decide, by decide⟩ <;>
  · unfold thresholdClassify
    split_ifs with h1 h2 h3 <;> simp_all <;> linarith

/-- C9 witness: the classification evaluated at concrete revenues. -/
theorem C9_threshold_classification_witness :
    thresholdClassify 123456 TaxStatus.Assujetti = "assujetti" ∧
    (thresholdClassify 42000 TaxStatus.Franchise = "exceeded" ↔
      (41250 : ℚ) < 42000) :=
  ⟨C9_threshold_classification.1 123456,
   C9_threshold_classification.2.1 42000⟩

/-- A paid quote fixture: `is_paid = true`, already shared and sent. -/
def paidQuote : Quote :=
  { baseQuote with
      is_paid := true, payment_date := some 5, sent_at := some 10,
      share_token := some "tok", share_token_expires_at := some 100000,
      status := QuoteStatus.Sent }

/-- A quote fixture that was already shared once (`sent_at` set) and since
accepted. -/
def sentQuote : Quote :=
  { baseQuote with sent_at := some 10, status := QuoteStatus.Accepted }

/-- A quote fixture whose share token has expired. -/
def expiredQuote : Quote :=
  { baseQuote with share_token := some "tk", share_token_expires_at := some 10 }

/-- A quote fixture with a live (far-future) share token "tk". -/
def sharedQuote : Quote :=
  { baseQuote with share_token := some "tk", share_token_expires_at := some 100000 }

/-- A quote fixture with a live (far-future) share token "tok". -/
def tokQuote : Quote :=
  { baseQuote with share_token := some "tok", share_token_expires_at := some 100000 }

/-- A client fixture owned by user "u1". -/
def clientA : Client :=
  { id := "c1", user_id := "u1", name := "ACME", email := "acme@example.com",
    company := none }

/-- A user fixture. -/
def userA : User := { id := "u1", tax_status := TaxStatus.Assujetti }

/-- C1 counterexample: `generate_share_link` on a paid quote is **not**
rejected with `Locked`: it succeeds and overwrites `sent_at` (as well as the
token and status), so not every mutating operation on a paid quote is
rejected. -/
theorem C1_counterexample :
    paidQuote.is_paid = true ∧
    (generate_share_link "u1" paidQuote "tok2" 50).isOk = true ∧
    (generate_share_link "u1" paidQuote "tok2" 50).toOption.map Quote.sent_at
      ≠ some paidQuote.sent_at := by
  refine ⟨rfl, rfl, ?_⟩
  simp [generate_share_link, paidQuote, baseQuote, Except.toOption]

/-- C1 (amended): on a paid quote, only the owner update (header or items)
is rejected with the Locked error kind (leaving the quote unchanged);
share-link generation and the public sign action perform no `is_paid` check:
both succeed on a paid quote and mutate it. -/
theorem C1_paid_lock_amended :
    (∀ (uid : String) (quote : Quote) (qd : QuoteUpdate) (now : Int),
      quote.user_id = uid → quote.is_paid = true →
      update_quote uid quote qd now = .error .Locked) ∧
    (∀ (uid : String) (quote : Quote) (tok : String) (now : Int),
      quote.user_id = uid → quote.is_paid = true →
      (generate_share_link uid quote tok now).isOk = true) ∧
    (∀ (db : List Quote) (token sn sd ip : String) (now : Int) (q : Quote),
      findByToken db token = some q → q.is_paid = true →
      (∀ e, q.share_token_expires_at = some e → ¬ e < now) →
      q.signed_at = none →
      (sign_quote db token sn sd ip now).isOk = true) := by
  refine ⟨?_, ?_, ?_⟩
  · intro uid quote qd now h1 h2
    simp [update_quote, h1, h2]
  · intro uid quote tok now h1 _
    simp [generate_share_link, h1, Except.isOk, Except.toBool]
  · intro db token sn sd ip now q hq _ hexp hsig
    unfold sign_quote
    rw [hq]
    cases he : q.share_token_expires_at with
    | none => simp [he, hsig, Except.isOk, Except.toBool]
    | some e => simp [he, hexp e he, hsig, Except.isOk, Except.toBool]

/-- C1 witness: concrete instances of the three conjuncts at `paidQuote`. -/
theorem C1_paid_lock_amended_witness :
    update_quote "u1" paidQuote ⟨none, none, none, none, none, none, none⟩ 50 =
      .error .Locked ∧
    (generate_share_link "u1" paidQuote "tok2" 50).isOk = true ∧
    (sign_quote [paidQuote] "tok" "Jean" "sig" "1.2.3.4" 50).isOk = true :=
  ⟨C1_paid_lock_amended.1 "u1" paidQuote ⟨none, none, none, none, none, none, none⟩ 50
      rfl rfl,
   C1_paid_lock_amended.2.1 "u1" paidQuote "tok2" 50 rfl rfl,
   C1_paid_lock_amended.2.2 [paidQuote] "tok" "Jean" "sig" "1.2.3.4" 50 paidQuote
      rfl rfl
      (by intro e he; simp [paidQuote, baseQuote] at he; subst he; decide)
      rfl⟩

/-- C7: with an existing share token, the public quote read and the public
PDF read succeed even when the token expiry has passed, while the sign
action with the same token is rejected with the distinct Expired (gone)
outcome. -/
theorem C7_expiry_asymmetry (db : List Quote) (clients : List Client)
    (users : List User) (token sn sd ip : String) (q : Quote) (c : Client)
    (u : User) (e now : Int)
    (hq : findByToken db token = some q)
    (hexp : q.share_token_expires_at = some e)
    (hpast : e < now)
    (hc : clients.find? (fun x => x.id = q.client_id) = some c)
    (hu : users.find? (fun x => x.id = q.user_id) = some u) :
    (get_public_quote db clients token).isOk = true ∧
    (get_public_quote_pdf db users token).isOk = true ∧
    sign_quote db token sn sd ip now = .error .Expired := by
  unfold get_public_quote get_public_quote_pdf sign_quote
  rw [hq]
  simp [hc, hu, hexp, hpast, Except.isOk, Except.toBool]

/-- C7 witness: the expired-token fixture, its client and its owner. -/
theorem C7_expiry_asymmetry_witness :
    (get_public_quote [expiredQuote] [clientA] "tk").isOk = true ∧
    (get_public_quote_pdf [expiredQuote] [userA] "tk").isOk = true ∧
    sign_quote [expiredQuote] "tk" "Jean" "sig" "1.2.3.4" 50 = .error .Expired :=
  C7_expiry_asymmetry [expiredQuote] [clientA] [userA] "tk" "Jean" "sig" "1.2.3.4"
    expiredQuote clientA userA 10 50 rfl rfl (by decide) rfl rfl

/-- C8 counterexample: on a quote whose `sent_at` is already set (to 10),
regenerating a share link at time 50 succeeds and **overwrites** `sent_at`
with 50, so `sent_at` is not preserved from the first share. -/
theorem C8_counterexample :
    (generate_share_link "u1" sentQuote "tk" 50).isOk = true ∧
    (generate_share_link "u1" sentQuote "tk" 50).toOption.map Quote.sent_at
      ≠ some sentQuote.sent_at := by
  refine ⟨rfl, ?_⟩
  simp [generate_share_link, sentQuote, baseQuote, Except.toOption]

/-- C8 (amended): generating a share link (owner-only) sets the fresh token,
`share_token_expires_at = now + 30 days`, forces `status = Sent` from any
prior status, and sets `sent_at = now` **unconditionally** — overwriting the
`sent_at` of an earlier share rather than preserving it. -/
theorem C8_share_link_amended (uid : String) (quote : Quote) (tok : String)
    (now : Int) (h : quote.user_id = uid) :
    generate_share_link uid quote tok now =
      .ok { quote with
              share_token := some tok
              share_token_expires_at := some (now + thirtyDays)
              status := QuoteStatus.Sent
              sent_at := some now
              updated_at := now } := by
  simp [generate_share_link, h]

/-- C8 witness: regeneration on `sentQuote` (prior status Accepted, prior
`sent_at = 10`). -/
theorem C8_share_link_amended_witness :
    generate_share_link "u1" sentQuote "tk" 50 =
      .ok { sentQuote with
              share_token := some "tk"
              share_token_expires_at := some (50 + thirtyDays)
              status := QuoteStatus.Sent
              sent_at := some 50
              updated_at := 50 } :=
  C8_share_link_amended "u1" sentQuote "tk" 50 rfl

/-- C6: on a quote with an existing, non-expired share token, the public
sign action succeeds exactly when `signed_at` is unset, recording
`signed_at`, `signature_data`, `signer_name`, `signer_ip` and
`status = Signed`; a second sign attempt with the same token is rejected
with the distinct AlreadySigned outcome (the error branch performs no write,
so the evidence of the first call is left unchanged). -/
theorem C6_sign_idempotency (db : List Quote)
    (token sn sd ip sn2 sd2 ip2 : String) (q : Quote) (now now2 : Int)
    (hq : findByToken db token = some q)
    (hexp : ∀ e, q.share_token_expires_at = some e → ¬ e < now) :
    (q.signed_at = none →
      sign_quote db token sn sd ip now =
        .ok { q with signed_at := some now, signature_data := some sd,
                     signer_name := some sn, signer_ip := some ip,
                     status := QuoteStatus.Signed, updated_at := now }) ∧
    (∀ q', sign_quote db token sn sd ip now = .ok q' → q.signed_at = none) ∧
    (∀ t, q.signed_at = some t →
      sign_quote db token sn sd ip now = .error .AlreadySigned) ∧
    (q.signed_at = none →
      (∀ e, q.share_token_expires_at = some e → ¬ e < now2) →
      sign_quote
        [{ q with signed_at := some now, signature_data := some sd,
                  signer_name := some sn, signer_ip := some ip,
                  status := QuoteStatus.Signed, updated_at := now }]
        token sn2 sd2 ip2 now2 = .error .AlreadySigned) := by
  have htok : q.share_token = some token := by
    have := List.find?_some hq
    simpa using this
  refine ⟨?_, ?_, ?_, ?_⟩
  · intro hsig
    unfold sign_quote
    rw [hq]
    cases he : q.share_token_expires_at with
    | none => simp [he, hsig]
    | some e => simp [he, hexp e he, hsig]
  · intro q' h
    by_contra hne
    cases hs : q.signed_at with
    | none => exact hne hs
    | some t =>
      unfold sign_quote at h
      rw [hq] at h
      cases he : q.share_token_expires_at with
      | none => simp [he, hs] at h
      | some e => simp [he, hexp e he, hs] at h
  · intro t hs
    unfold sign_quote
    rw [hq]
    cases he : q.share_token_expires_at with
    | none => simp [he, hs]
    | some e => simp [he, hexp e he, hs]
  · intro _ hexp2
    unfold sign_quote findByToken
    simp only [List.find?, htok]
    cases he : q.share_token_expires_at with
    | none => simp [he, htok]
    | some e => simp [he, htok, hexp2 e he]

/-- C6 witness: signing the (non-expired) shared fixture once succeeds and
records the evidence; the second attempt returns AlreadySigned. -/
theorem C6_sign_idempotency_witness :
    sign_quote [sharedQuote] "tk" "Jean" "sig" "1.2.3.4" 50 =
      .ok { sharedQuote with
            signed_at := some 50, signature_data := some "sig",
            signer_name := some "Jean", signer_ip := some "1.2.3.4",
            status := QuoteStatus.Signed, updated_at := 50 } ∧
    sign_quote
        [{ sharedQuote with
           signed_at := some 50, signature_data := some "sig",
           signer_name := some "Jean", signer_ip := some "1.2.3.4",
           status := QuoteStatus.Signed, updated_at := 50 }]
        "tk" "Marie" "sig2" "5.6.7.8" 60 = .error .AlreadySigned := by
  have h := C6_sign_idempotency
    [sharedQuote] "tk" "Jean" "sig" "1.2.3.4" "Marie" "sig2" "5.6.7.8"
    sharedQuote 50 60 rfl
    (by intro e he; simp [sharedQuote, baseQuote] at he; subst he; decide)
  exact ⟨h.1 rfl,
    h.2.2.2 rfl
      (by intro e he; simp [sharedQuote, baseQuote] at he; subst he; decide)⟩

/-- C10: `generate_share_link` overwrites the quote's share token, so a
previously issued token — unique to this quote in the store — immediately
stops matching, and every public endpoint (quote read, sign, PDF) returns
NotFound for the superseded token even though its expiry window had not
elapsed. -/
theorem C10_superseded_token (db : List Quote) (clients : List Client)
    (users : List User) (q q' : Quote) (uid old fresh sn sd ip : String)
    (now now2 : Int)
    (_hold : q.share_token = some old)
    (hgen : generate_share_link uid q fresh now = .ok q')
    (hfresh : fresh ≠ old)
    (huniq : ∀ r ∈ db, r.share_token = some old → r = q)
    (_hwin : ∀ e, q.share_token_expires_at = some e → ¬ e < now2) :
    findByToken (db.map (fun r => if r = q then q' else r)) old = none ∧
    get_public_quote (db.map (fun r => if r = q then q' else r)) clients old =
      .error .NotFound ∧
    sign_quote (db.map (fun r => if r = q then q' else r)) old sn sd ip now2 =
      .error .NotFound ∧
    get_public_quote_pdf (db.map (fun r => if r = q then q' else r)) users old =
      .error .NotFound := by
  have hq' : q'.share_token = some fresh := by
    unfold generate_share_link at hgen
    split at hgen
    · exact absurd hgen (by simp)
    · simp only [Except.ok.injEq] at hgen
      rw [← hgen]
  have hnone : findByToken (db.map (fun r => if r = q then q' else r)) old = none := by
    unfold findByToken
    rw [List.find?_eq_none]
    intro x hx
    rcases List.mem_map.mp hx with ⟨r, hr, hrx⟩
    by_cases hrq : r = q
    · rw [if_pos hrq] at hrx
      subst hrx
      simp [hq', hfresh]
    · rw [if_neg hrq] at hrx
      subst hrx
      intro hcontra
      simp only [decide_eq_true_eq] at hcontra
      exact hrq (huniq r hr hcontra)
  refine ⟨hnone, ?_, ?_, ?_⟩
  · unfold get_public_quote; rw [hnone]
  · unfold sign_quote; rw [hnone]
  · unfold get_public_quote_pdf; rw [hnone]

/-- C10 witness: regenerating the token of the shared fixture makes all
three public endpoints return NotFound for the old token "tok" although its
expiry (100000) is far in the future of the probe time 60. -/
theorem C10_superseded_token_witness :
    findByToken
        [{ tokQuote with
           share_token := some "tok2",
           share_token_expires_at := some (50 + thirtyDays),
           status := QuoteStatus.Sent, sent_at := some 50, updated_at := 50 }]
        "tok" = none ∧
    get_public_quote
        [{ tokQuote with
           share_token := some "tok2",
           share_token_expires_at := some (50 + thirtyDays),
           status := QuoteStatus.Sent, sent_at := some 50, updated_at := 50 }]
        [clientA] "tok" = .error .NotFound ∧
    sign_quote
        [{ tokQuote with
           share_token := some "tok2",
           share_token_expires_at := some (50 + thirtyDays),
           status := QuoteStatus.Sent, sent_at := some 50, updated_at := 50 }]
        "tok" "Jean" "sig" "1.2.3.4" 60 = .error .NotFound ∧
    get_public_quote_pdf
        [{ tokQuote with
           share_token := some "tok2",
           share_token_expires_at := some (50 + thirtyDays),
           status := QuoteStatus.Sent, sent_at := some 50, updated_at := 50 }]
        [userA] "tok" = .error .NotFound := by
  have h := C10_superseded_token
    [tokQuote] [clientA] [userA] tokQuote
    { tokQuote with
      share_token := some "tok2",
      share_token_expires_at := some (50 + thirtyDays),
      status := QuoteStatus.Sent, sent_at := some 50, updated_at := 50 }
    "u1" "tok" "tok2" "Jean" "sig" "1.2.3.4" 50 60
    rfl rfl (by decide)
    (by intro r hr _; simp at hr; exact hr)
    (by intro e he; simp [tokQuote, baseQuote] at he; subst he; decide)
  simpa using h

/- Inversion of a successful `create_quote`. -/
theorem create_ok_inv (u : User) (cs : List Client) (qd : QuoteCreate)
    (nid : String) (nm now : Int) (q : Quote)
    (h : create_quote u cs qd nid nm now = .ok q) :
    q = buildNewQuote u qd nid nm now := by
  unfold create_quote at h
  cases hf : cs.find? (fun c => c.id = qd.client_id) with
  | none => rw [hf] at h; exact absurd h (by simp)
  | some c =>
    rw [hf] at h
    simp only at h
    split at h
    · exact absurd h (by simp)
    · simpa using h.symm

/- Inversion of a successful `update_quote`. -/
theorem update_ok_inv (uid : String) (quote : Quote) (qd : QuoteUpdate)
    (now : Int) (q' : Quote)
    (h : update_quote uid quote qd now = .ok q') :
    quote.user_id = uid ∧ quote.is_paid = false ∧
    ((qd.items = none ∧ q' = applyHeaderUpdate quote qd now) ∨
     (∃ l, qd.items = some l ∧
        q' = calculate_quote_totals
          { applyHeaderUpdate quote qd now with
              items := reconcileItems (applyHeaderUpdate quote qd now).items l }
          (reconcileItems (applyHeaderUpdate quote qd now).items l))) := by
  unfold update_quote at h
  split at h
  · exact absurd h (by simp)
  next h1 =>
    split at h
    · exact absurd h (by simp)
    next h2 =>
      refine ⟨not_ne_iff.mp h1, by simpa using h2, ?_⟩
      cases hit : qd.items with
      | none =>
        rw [hit] at h
        simp only [Except.ok.injEq] at h
        exact .inl ⟨rfl, h.symm⟩
      | some l =>
        rw [hit] at h
        simp only [Except.ok.injEq] at h
        exact .inr ⟨l, rfl, h.symm⟩

/- The header stage of an update never touches the monetary aggregate
fields, the items, the discount or the fiscal snapshot. -/
theorem headerUpdate_preserves (quote : Quote) (qd : QuoteUpdate) (now : Int) :
    (applyHeaderUpdate quote qd now).subtotal = quote.subtotal ∧
    (applyHeaderUpdate quote qd now).tax_amount = quote.tax_amount ∧
    (applyHeaderUpdate quote qd now).total = quote.total ∧
    (applyHeaderUpdate quote qd now).items = quote.items ∧
    (applyHeaderUpdate quote qd now).discount_value = quote.discount_value ∧
    (applyHeaderUpdate quote qd now).tax_status = quote.tax_status := by
  unfold applyHeaderUpdate
  cases hip : qd.is_paid <;> cases htr : qd.tax_rate <;>
    simp only [hip, htr] <;> (try split_ifs) <;> simp

/- The tax rate produced by the header stage. -/
theorem headerUpdate_tax_rate (quote : Quote) (qd : QuoteUpdate) (now : Int)
    (r : ℚ) (htr : qd.tax_rate = some r) :
    (applyHeaderUpdate quote qd now).tax_rate =
      if quote.tax_status = TaxStatus.Franchise then 0 else r := by
  unfold applyHeaderUpdate
  cases hip : qd.is_paid <;> simp only [hip, htr] <;> split_ifs <;> simp_all

/- `calculate_quote_totals` writes only the three aggregate fields. -/
theorem calc_totals_tax_rate (q : Quote) (l : List QuoteItem) :
    (calculate_quote_totals q l).tax_rate = q.tax_rate := rfl

/- A quote obtained by `calculate_quote_totals` over its own item list is
consistent. -/
theorem totalsConsistent_calc (q : Quote) (l : List QuoteItem)
    (h : q.items = l) : TotalsConsistent (calculate_quote_totals q l) := by
  unfold TotalsConsistent
  rw [calc_totals_items, h]
  exact calc_totals_idem q l

/-- A quote fixture with one item and consistent stored totals at tax rate
20 % (subtotal 100, tax 20, total 120). -/
def cQuote : Quote :=
  { baseQuote with
      tax_rate := 20, subtotal := 100, tax_amount := 20, total := 120,
      items := [{ id := 1, description := "A", quantity := 1, unit_price := 100,
                  total := 100, order := 0 }] }

/-- C3 counterexample: updating only `tax_rate` (20 → 10) succeeds but does
not recompute `tax_amount`/`total`: the stored triple is no longer
consistent with the new rate (recomputation would give tax 10, not 20). -/
theorem C3_counterexample :
    update_quote "u1" cQuote ⟨none, none, none, none, none, some 10, none⟩ 99 =
      .ok { cQuote with tax_rate := 10 } ∧
    ¬ TotalsConsistent { cQuote with tax_rate := 10 } := by
  constructor
  · rfl
  · intro h
    have h2 := congrArg Quote.tax_amount h
    simp [TotalsConsistent, calculate_quote_totals, cQuote, baseQuote] at h2

/-- C3 (amended): the three aggregate fields are recomputed together from
the current items, discount and tax rate at creation and at every update
whose payload includes an items list; an update without an items list
leaves all three exactly as they were — so an update that changes only
`tax_rate` leaves `tax_amount` and `total` at values computed with the old
rate. -/
theorem C3_totals_recomputed_amended :
    (∀ (u : User) (cs : List Client) (qd : QuoteCreate) (nid : String)
        (nm now : Int) (q : Quote),
      create_quote u cs qd nid nm now = .ok q → TotalsConsistent q) ∧
    (∀ (uid : String) (quote : Quote) (qd : QuoteUpdate) (now : Int)
        (q' : Quote) (l : List QuoteItemPatch),
      qd.items = some l → update_quote uid quote qd now = .ok q' →
      TotalsConsistent q') ∧
    (∀ (uid : String) (quote : Quote) (qd : QuoteUpdate) (now : Int)
        (q' : Quote),
      qd.items = none → update_quote uid quote qd now = .ok q' →
      q'.subtotal = quote.subtotal ∧ q'.tax_amount = quote.tax_amount ∧
      q'.total = quote.total) := by
  refine ⟨?_, ?_, ?_⟩
  · intro u cs qd nid nm now q h
    rw [create_ok_inv u cs qd nid nm now q h]
    unfold buildNewQuote
    exact totalsConsistent_calc _ _ rfl
  · intro uid quote qd now q' l hl h
    rcases update_ok_inv uid quote qd now q' h with ⟨_, _, hcase⟩
    rcases hcase with ⟨hnone, _⟩ | ⟨l', _, heq⟩
    · rw [hl] at hnone; exact absurd hnone (by simp)
    · rw [heq]
      exact totalsConsistent_calc _ _ rfl
  · intro uid quote qd now q' hnone h
    rcases update_ok_inv uid quote qd now q' h with ⟨_, _, hcase⟩
    rcases hcase with ⟨_, heq⟩ | ⟨l', hsome, _⟩
    · rw [heq]
      obtain ⟨h1, h2, h3, _⟩ := headerUpdate_preserves quote qd now
      exact ⟨h1, h2, h3⟩
    · rw [hnone] at hsome; exact absurd hsome (by simp)

/-- C3 witness: a creation and the two update shapes at concrete inputs. -/
theorem C3_totals_recomputed_amended_witness :
    TotalsConsistent
      { cQuote with
          tax_rate := 10, items := cQuote.items,
          subtotal := 100, tax_amount := 10, total := 110 } ∧
    (({ cQuote with tax_rate := 10 } : Quote).subtotal = cQuote.subtotal ∧
     ({ cQuote with tax_rate := 10 } : Quote).tax_amount = cQuote.tax_amount ∧
     ({ cQuote with tax_rate := 10 } : Quote).total = cQuote.total) := by
  constructor
  · exact C3_totals_recomputed_amended.2.1 "u1" cQuote
      ⟨none, none, none, none, none, some 10,
        some [⟨some 1, none, none, none, none⟩]⟩ 99
      { cQuote with
          tax_rate := 10, items := cQuote.items,
          subtotal := 100, tax_amount := 10, total := 110 }
      [⟨some 1, none, none, none, none⟩] rfl
      (by simp [update_quote, applyHeaderUpdate, reconcileItems, truthyId,
            applyItemPatch, strTruthy, ratTruthy, calculate_quote_totals,
            cQuote, baseQuote, List.find?]
          norm_num)
  · exact C3_totals_recomputed_amended.2.2 "u1" cQuote
      ⟨none, none, none, none, none, some 10, none⟩ 99
      { cQuote with tax_rate := 10 } rfl rfl

/- Projections of a freshly built quote. -/
theorem buildNewQuote_tax_rate (u : User) (qd : QuoteCreate) (nid : String)
    (nm now : Int) :
    (buildNewQuote u qd nid nm now).tax_rate =
      if u.tax_status = TaxStatus.Franchise then 0 else qd.tax_rate := rfl

/- Zero tax rate and zero discount make the computed tax vanish and the
grand total coincide with the subtotal (item totals being nonnegative). -/
theorem calc_zero_rate (q : Quote) (l : List QuoteItem)
    (hr : q.tax_rate = 0) (hd : q.discount_value = 0)
    (hl : ∀ it ∈ l, 0 ≤ it.total) :
    (calculate_quote_totals q l).tax_amount = 0 ∧
    (calculate_quote_totals q l).total = (calculate_quote_totals q l).subtotal := by
  have hs : 0 ≤ (l.map QuoteItem.total).sum := by
    apply List.sum_nonneg
    intro x hx
    rcases List.mem_map.mp hx with ⟨it, hit, rfl⟩
    exact hl it hit
  unfold calculate_quote_totals
  simp [hr, hd, max_eq_left hs]

/- A FRANCHISE creation with zero discount and nonnegative item data yields
zero tax and `total = subtotal`. -/
theorem buildNewQuote_zero_rate (u : User) (qd : QuoteCreate) (nid : String)
    (nm now : Int) (hf : u.tax_status = TaxStatus.Franchise)
    (hd : qd.discount_value = 0)
    (hnn : ∀ it ∈ qd.items, 0 ≤ it.quantity ∧ 0 ≤ it.unit_price) :
    (buildNewQuote u qd nid nm now).tax_amount = 0 ∧
    (buildNewQuote u qd nid nm now).total =
      (buildNewQuote u qd nid nm now).subtotal := by
  unfold buildNewQuote
  apply calc_zero_rate
  · simp [hf]
  · exact hd
  · intro it hit
    unfold newQuoteItems at hit
    rcases List.mem_map.mp hit with ⟨ic, hic, rfl⟩
    exact mul_nonneg (hnn ic hic).1 (hnn ic hic).2

/-- C5: if the snapshotted tax status is FRANCHISE, the effective tax rate
is forced to 0 regardless of the caller-supplied value, at creation and at
every update whose payload includes `tax_rate`; and a FRANCHISE creation
with `tax_rate = 20.00` (and no discount, nonnegative item data) persists
`tax_rate = 0`, `tax_amount = 0` and `total = subtotal`. -/
theorem C5_franchise_tax_override :
    (∀ (u : User) (cs : List Client) (qd : QuoteCreate) (nid : String)
        (nm now : Int) (q : Quote),
      u.tax_status = TaxStatus.Franchise →
      create_quote u cs qd nid nm now = .ok q → q.tax_rate = 0) ∧
    (∀ (uid : String) (quote : Quote) (qd : QuoteUpdate) (now : Int)
        (q' : Quote) (r : ℚ),
      quote.tax_status = TaxStatus.Franchise → qd.tax_rate = some r →
      update_quote uid quote qd now = .ok q' → q'.tax_rate = 0) ∧
    (∀ (u : User) (cs : List Client) (qd : QuoteCreate) (nid : String)
        (nm now : Int) (q : Quote),
      u.tax_status = TaxStatus.Franchise → qd.tax_rate = 20 →
      qd.discount_value = 0 →
      (∀ it ∈ qd.items, 0 ≤ it.quantity ∧ 0 ≤ it.unit_price) →
      create_quote u cs qd nid nm now = .ok q →
      q.tax_rate = 0 ∧ q.tax_amount = 0 ∧ q.total = q.subtotal) := by
  refine ⟨?_, ?_, ?_⟩
  · intro u cs qd nid nm now q hf h
    rw [create_ok_inv u cs qd nid nm now q h, buildNewQuote_tax_rate, if_pos hf]
  · intro uid quote qd now q' r hf htr h
    rcases update_ok_inv uid quote qd now q' h with ⟨_, _, hcase⟩
    have hhdr : (applyHeaderUpdate quote qd now).tax_rate = 0 := by
      rw [headerUpdate_tax_rate quote qd now r htr, if_pos hf]
    rcases hcase with ⟨_, heq⟩ | ⟨l, _, heq⟩
    · rw [heq]; exact hhdr
    · rw [heq, calc_totals_tax_rate]; exact hhdr
  · intro u cs qd nid nm now q hf _ hd hnn h
    rw [create_ok_inv u cs qd nid nm now q h]
    obtain ⟨ht, htot⟩ := buildNewQuote_zero_rate u qd nid nm now hf hd hnn
    exact ⟨by rw [buildNewQuote_tax_rate, if_pos hf], ht, htot⟩

/-- A FRANCHISE user fixture. -/
def userF : User := { id := "u1", tax_status := TaxStatus.Franchise }

/-- A creation payload fixture: tax rate 20 %, one item 2 × 100, no
discount. -/
def qd5 : QuoteCreate :=
  { client_id := "c1", quote_number := some "Q-7", currency := .EUR,
    tax_rate := 20, discount_type := none, discount_value := 0,
    notes := none, payment_terms := none,
    items := [{ description := "S", quantity := 2, unit_price := 100, order := 1 }] }

/-- The quote `create_quote userF [clientA] qd5 "q9" 111 222` persists. -/
def q5 : Quote :=
  { id := "q9", user_id := "u1", client_id := "c1", quote_number := "Q-7",
    currency := .EUR, subtotal := 200, tax_rate := 0, tax_amount := 0,
    total := 200, discount_type := none, discount_value := 0, notes := none,
    payment_terms := none, status := .Draft, tax_status := .Franchise,
    is_paid := false, payment_date := none, share_token := none,
    share_token_expires_at := none, signed_at := none, signature_data := none,
    signer_name := none, signer_ip := none, sent_at := none,
    created_at := 222, updated_at := 222,
    items := [{ id := 0, description := "S", quantity := 2, unit_price := 100,
                total := 200, order := 1 }] }

/-- C5 witness: the FRANCHISE creation with tax rate 20 and the FRANCHISE
update with tax rate 15, at concrete inputs. -/
theorem C5_franchise_tax_override_witness :
    q5.tax_rate = 0 ∧
    ({ cQuote with tax_status := TaxStatus.Franchise, tax_rate := 0 } : Quote).tax_rate = 0 ∧
    (q5.tax_rate = 0 ∧ q5.tax_amount = 0 ∧ q5.total = q5.subtotal) := by
  have hcreate : create_quote userF [clientA] qd5 "q9" 111 222 = .ok q5 := by
    simp [create_quote, buildNewQuote, newQuoteItems, calculate_quote_totals,
      pyOrStr, strTruthy, clientA, userF, qd5, q5, List.find?]
    norm_num
  have hnn : ∀ it ∈ qd5.items, 0 ≤ it.quantity ∧ 0 ≤ it.unit_price := by
    intro it hit
    simp [qd5] at hit
    subst hit
    constructor <;> norm_num
  refine ⟨?_, ?_, ?_⟩
  · exact C5_franchise_tax_override.1 userF [clientA] qd5 "q9" 111 222 q5 rfl hcreate
  · exact C5_franchise_tax_override.2.1 "u1"
      { cQuote with tax_status := TaxStatus.Franchise }
      ⟨none, none, none, none, none, some 15, none⟩ 99
      { cQuote with tax_status := TaxStatus.Franchise, tax_rate := 0 } 15
      rfl rfl rfl
  · exact C5_franchise_tax_override.2.2 userF [clientA] qd5 "q9" 111 222 q5
      rfl rfl rfl hnn hcreate

/-- Reference patch semantics, written from the amended claim wording: a
provided description is applied unless empty, provided quantity and unit
price unless zero, a provided order always; the total is then the product
of the resulting quantity and unit price. -/
def patchRefItem (ex : QuoteItem) (p : QuoteItemPatch) : QuoteItem :=
  let d := match p.description with
    | some s => if s = "" then ex.description else s
    | none => ex.description
  let qty := match p.quantity with
    | some v => if v = 0 then ex.quantity else v
    | none => ex.quantity
  let price := match p.unit_price with
    | some v => if v = 0 then ex.unit_price else v
    | none => ex.unit_price
  { id := ex.id, description := d, quantity := qty, unit_price := price,
    total := qty * price,
    order := match p.order with | some o => o | none => ex.order }

/-- Reference fresh-item semantics, written from the amended claim wording:
description defaults to "", quantity to 1 when absent or zero, unit price to
0, order to 0, and the total is the product of the provided quantity (0 when
absent) and the provided unit price (0 when absent) — which is 0, not
quantity × unit_price, whenever the quantity is absent or zero. -/
def freshRefItem (p : QuoteItemPatch) : QuoteItem :=
  { id := 0
    description := match p.description with | some s => s | none => ""
    quantity := match p.quantity with | some v => if v = 0 then 1 else v | none => 1
    unit_price := match p.unit_price with | some v => v | none => 0
    total := (match p.quantity with | some v => v | none => 0) *
             (match p.unit_price with | some v => v | none => 0)
    order := match p.order with | some o => o | none => 0 }

/-- The amended reconciliation reference: the resulting item list is exactly
one item per incoming entry, in order — the patched existing item when the
entry carries a nonzero id found among the existing items, a fresh item
otherwise; existing items never matched by id do not appear (they are
deleted). -/
def reconcileRef (existing : List QuoteItem) (incoming : List QuoteItemPatch) :
    List QuoteItem :=
  incoming.map (fun p =>
    match p.id with
    | some pid =>
      if pid = 0 then freshRefItem p
      else
        match existing.find? (fun it => it.id = pid) with
        | some ex => patchRefItem ex p
        | none => freshRefItem p
    | none => freshRefItem p)

/- The source's new-item construction agrees with the reference. -/
theorem newItem_eq_fresh (p : QuoteItemPatch) :
    newItemFromPatch p = freshRefItem p := by
  rcases p with ⟨pid, pd, pq, pu, po⟩
  unfold newItemFromPatch freshRefItem pyOrStr pyOrRat pyOrInt strTruthy ratTruthy
  cases pd <;> cases pq <;> cases pu <;> cases po <;> simp <;> aesop

/- The source's patch application agrees with the reference. -/
theorem patch_eq_ref (ex : QuoteItem) (p : QuoteItemPatch) :
    applyItemPatch ex p = patchRefItem ex p := by
  rcases p with ⟨pid, pd, pq, pu, po⟩
  unfold applyItemPatch patchRefItem strTruthy ratTruthy
  cases pd <;> cases pq <;> cases pu <;> cases po <;> simp

/- Finding by an id different from the filtered-out one is unaffected. -/
theorem find_filter_ne (l : List QuoteItem) {a b : Nat} (h : a ≠ b) :
    (l.filter (fun it => it.id ≠ b)).find? (fun it => it.id = a) =
      l.find? (fun it => it.id = a) := by
  induction l with
  | nil => rfl
  | cons x xs ih =>
    by_cases hx : x.id = b
    · have hxa : ¬ x.id = a := by
        intro hc
        exact h (by rw [← hc]; exact hx)
      rw [List.filter_cons, if_neg (by simp [hx]),
        List.find?_cons_of_neg _ (by simp [hxa])]
      exact ih
    · rw [List.filter_cons, if_pos (by simp [hx])]
      by_cases hxa : x.id = a
      · rw [List.find?_cons_of_pos _ (by simp [hxa]),
          List.find?_cons_of_pos _ (by simp [hxa])]
      · rw [List.find?_cons_of_neg _ (by simp [hxa]),
          List.find?_cons_of_neg _ (by simp [hxa])]
        exact ih

/-- The (truthy) ids carried by the incoming entries, in order. -/
def incomingIds (incoming : List QuoteItemPatch) : List Nat :=
  incoming.filterMap (fun p => truthyId p.id)

/- Unfolding `reconcileRef` one entry at a time, phrased through
`truthyId`. -/
theorem reconcileRef_cons (existing : List QuoteItem) (p : QuoteItemPatch)
    (ps : List QuoteItemPatch) :
    reconcileRef existing (p :: ps) =
      (match truthyId p.id with
        | some pid =>
          (match existing.find? (fun it => it.id = pid) with
            | some ex => patchRefItem ex p
            | none => freshRefItem p)
        | none => freshRefItem p) :: reconcileRef existing ps := by
  unfold reconcileRef truthyId
  cases hp : p.id with
  | none => simp [hp]
  | some n => by_cases h0 : n = 0 <;> simp [hp, h0]

/- The source reconciliation agrees with the reference whenever the truthy
incoming ids are pairwise distinct, as long as lookups in the shrinking
"remaining" set agree with lookups in the full existing list. -/
theorem reconcile_eq_ref_aux (incoming : List QuoteItemPatch) :
    ∀ remaining existing : List QuoteItem,
    (incomingIds incoming).Nodup →
    (∀ pid, pid ∈ incomingIds incoming →
      remaining.find? (fun it => it.id = pid) =
        existing.find? (fun it => it.id = pid)) →
    reconcileItems remaining incoming = reconcileRef existing incoming := by
  induction incoming with
  | nil => intro remaining existing _ _; rfl
  | cons p ps ih =>
    intro remaining existing hn hagree
    rw [reconcileRef_cons]
    cases hid : truthyId p.id with
    | none =>
      have hids : incomingIds (p :: ps) = incomingIds ps := by
        simp [incomingIds, hid]
      rw [show reconcileItems remaining (p :: ps) =
          (match truthyId p.id with
            | some pid =>
              (match remaining.find? (fun it => it.id = pid) with
                | some existing_item =>
                  applyItemPatch existing_item p ::
                    reconcileItems (remaining.filter (fun it => it.id ≠ pid)) ps
                | none => newItemFromPatch p :: reconcileItems remaining ps)
            | none => newItemFromPatch p :: reconcileItems remaining ps)
          from rfl]
      rw [hid]
      exact congrArg₂ List.cons (newItem_eq_fresh p)
        (ih remaining existing (hids ▸ hn)
          (fun pid hpid => hagree pid (hids ▸ hpid)))
    | some pid =>
      have hids : incomingIds (p :: ps) = pid :: incomingIds ps := by
        simp [incomingIds, hid]
      have hn' : (incomingIds ps).Nodup ∧ pid ∉ incomingIds ps := by
        rw [hids] at hn
        exact ⟨hn.of_cons, (List.nodup_cons.mp hn).1⟩
      have hag : remaining.find? (fun it => it.id = pid) =
          existing.find? (fun it => it.id = pid) :=
        hagree pid (by rw [hids]; exact List.mem_cons_self pid _)
      rw [show reconcileItems remaining (p :: ps) =
          (match truthyId p.id with
            | some pid =>
              (match remaining.find? (fun it => it.id = pid) with
                | some existing_item =>
                  applyItemPatch existing_item p ::
                    reconcileItems (remaining.filter (fun it => it.id ≠ pid)) ps
                | none => newItemFromPatch p :: reconcileItems remaining ps)
            | none => newItemFromPatch p :: reconcileItems remaining ps)
          from rfl]
      rw [hid]
      cases hf : existing.find? (fun it => it.id = pid) with
      | none =>
        have hrem : remaining.find? (fun it => it.id = pid) = none := by
          rw [hag, hf]
        simp only [hrem, hf]
        exact congrArg₂ List.cons (newItem_eq_fresh p)
          (ih remaining existing hn'.1
            (fun pid' hpid' => hagree pid' (by rw [hids]; exact List.mem_cons_of_mem _ hpid')))
      | some ex =>
        have hrem : remaining.find? (fun it => it.id = pid) = some ex := by
          rw [hag, hf]
        simp only [hrem, hf]
        refine congrArg₂ List.cons (patch_eq_ref ex p) ?_
        apply ih _ existing hn'.1
        intro pid' hpid'
        have hne : pid' ≠ pid := fun hc => hn'.2 (hc ▸ hpid')
        rw [find_filter_ne remaining hne]
        exact hagree pid' (by rw [hids]; exact List.mem_cons_of_mem _ hpid')

/-- C4 counterexample: an incoming entry with no id, description "B",
**no quantity** and unit price 5 becomes a new item with quantity 1 and
unit price 5 but **total 0** (the source computes the total as
`(quantity or 0) × (unit_price or 0)` before defaulting the stored quantity
to 1), so the new item does not satisfy `total = quantity × unit_price`. -/
theorem C4_counterexample :
    (reconcileItems [] [⟨none, some "B", none, some 5, none⟩]).map
        (fun it => (it.quantity, it.unit_price, it.total)) = [(1, 5, 0)] ∧
    (reconcileItems [] [⟨none, some "B", none, some 5, none⟩]).map QuoteItem.total ≠
      (reconcileItems [] [⟨none, some "B", none, some 5, none⟩]).map
        (fun it => it.quantity * it.unit_price) := by
  constructor
  · simp [reconcileItems, newItemFromPatch, truthyId, pyOrStr, pyOrRat, pyOrInt,
      strTruthy, ratTruthy]
  · simp [reconcileItems, newItemFromPatch, truthyId, pyOrStr, pyOrRat, pyOrInt,
      strTruthy, ratTruthy]

/-- C4 (amended): when an update payload includes an items list (whose
incoming nonzero ids are pairwise distinct), reconciliation yields exactly
one item per incoming entry: an entry with a nonzero id matching an existing
item patches that item — a provided field is applied only when it is
non-null **and non-empty/non-zero** (order whenever non-null) — and its
total is recomputed as quantity × unit_price; any other entry becomes a new
item defaulting description to "", quantity to 1 when absent or zero,
unit_price to 0 and order to 0, whose total is
`(provided quantity or 0) × (provided unit_price or 0)` — 0, not
quantity × unit_price, when the quantity is absent; every existing item not
matched by id is deleted; the aggregate totals are then recomputed over the
resulting list. -/
theorem C4_reconciliation_amended (uid : String) (quote : Quote)
    (qd : QuoteUpdate) (now : Int) (q' : Quote)
    (incoming : List QuoteItemPatch)
    (hl : qd.items = some incoming)
    (hnodup : (incomingIds incoming).Nodup)
    (h : update_quote uid quote qd now = .ok q') :
    q'.items = reconcileRef quote.items incoming ∧ TotalsConsistent q' := by
  rcases update_ok_inv uid quote qd now q' h with ⟨_, _, hcase⟩
  rcases hcase with ⟨hnone, _⟩ | ⟨l', hsome, heq⟩
  · rw [hl] at hnone; exact absurd hnone (by simp)
  · rw [hl] at hsome
    injection hsome with hsame
    subst hsame
    constructor
    · rw [heq, calc_totals_items]
      show reconcileItems (applyHeaderUpdate quote qd now).items incoming =
        reconcileRef quote.items incoming
      rw [(headerUpdate_preserves quote qd now).2.2.2.1]
      exact reconcile_eq_ref_aux incoming quote.items quote.items hnodup
        (fun _ _ => rfl)
    · rw [heq]
      exact totalsConsistent_calc _ _ rfl

/-- The spec's reconciliation example: one existing item
(id 1, "A", qty 2, price 10). -/
def exQ : Quote :=
  { baseQuote with
      items := [{ id := 1, description := "A", quantity := 2, unit_price := 10,
                  total := 20, order := 0 }] }

/-- C4 witness: the spec's own example — incoming `[{id 1, qty 3},
{desc "B", qty 1, price 5}]` patches item 1 to total 30 and creates "B" with
total 5; the aggregate totals are recomputed (subtotal 35). -/
theorem C4_reconciliation_amended_witness :
    ({ exQ with
        subtotal := 35, tax_amount := 0, total := 35,
        items := [⟨1, "A", 3, 10, 30, 0⟩, ⟨0, "B", 1, 5, 5, 0⟩] } : Quote).items =
      reconcileRef exQ.items
        [⟨some 1, none, some 3, none, none⟩,
         ⟨none, some "B", some 1, some 5, none⟩] ∧
    TotalsConsistent
      { exQ with
        subtotal := 35, tax_amount := 0, total := 35,
        items := [⟨1, "A", 3, 10, 30, 0⟩, ⟨0, "B", 1, 5, 5, 0⟩] } := by
  exact C4_reconciliation_amended "u1" exQ
    ⟨none, none, none, none, none, none,
      some [⟨some 1, none, some 3, none, none⟩,
            ⟨none, some "B", some 1, some 5, none⟩]⟩ 7
    { exQ with
      subtotal := 35, tax_amount := 0, total := 35,
      items := [⟨1, "A", 3, 10, 30, 0⟩, ⟨0, "B", 1, 5, 5, 0⟩] }
    [⟨some 1, none, some 3, none, none⟩,
     ⟨none, some "B", some 1, some 5, none⟩]
    rfl
    (by simp [incomingIds, truthyId])
    (by simp [update_quote, applyHeaderUpdate, reconcileItems, truthyId,
          applyItemPatch, newItemFromPatch, pyOrRat, pyOrStr, pyOrInt,
          strTruthy, ratTruthy, calculate_quote_totals, exQ, baseQuote,
          List.find?, List.filter]
        norm_num)

end Invoice
